import Mathlib

/-!
Verification of the conversational turn controller of the whisplay-ai-chatbot
repository: the sentence segmenter (`src/utils`: `splitSentences`,
`purifyTextForTTS`), the streaming-response orchestrator
(`StreamResponser` in `src/core/StreamResponsor.ts`), and the turn state
machine (`ChatFlow` in `src/core/ChatFlow.ts`).

Strings are modelled as `List Char`; the convenience `s2c` converts a Lean
string literal.  JavaScript semantics modelled: `String.prototype.trim`
(whitespace at both ends), `toLowerCase` (ASCII fold; all voice-command
phrases are ASCII), and the regex
`/.*?([。！？!?，,]|\.)(?=\s|$)/gs` used by `splitSentences`.
-/

namespace Whisplay

/-- Convert a Lean string literal to the `List Char` representation. -/
def s2c (s : String) : List Char := s.data

/-- The sentence-terminal marker characters of the segmenter regex:
the alternation `([。！？!?，,]|\.)`. -/
def isMarker (c : Char) : Bool :=
  c = '。' || c = '！' || c = '？' || c = '!' || c = '?' || c = '，' || c = ',' || c = '.'

/-- JavaScript `\s` on the code points that can occur here (ASCII whitespace
plus NBSP); used for the `(?=\s|$)` lookahead and for `trim`. -/
def isJsSpace (c : Char) : Bool :=
  c = ' ' || c = '\t' || c = '\n' || c = '\r' || c = '\x0b' || c = '\x0c' || c = '\u00a0'

/-- `String.prototype.trim`: drop whitespace from both ends. -/
def trimChars (l : List Char) : List Char :=
  ((l.dropWhile isJsSpace).reverse.dropWhile isJsSpace).reverse

/-- Length of the match of the non-greedy regex `.*?(marker)(?=\s|$)` at the
start of the text: the shortest prefix that ends with a marker character
which is followed by whitespace or end of input.  `none` when no such prefix
exists. -/
def findMatchLen : List Char → Option Nat
  | [] => none
  | c :: rest =>
    if isMarker c && (rest.isEmpty || isJsSpace (rest.headD ' ')) then some 1
    else
      match findMatchLen rest with
      | some n => some (n + 1)
      | none => none

/-- The character class `/[0-9\.。！？!?，,]/` tested against each candidate
sentence (line 67 of `splitSentences`). -/
def isTestChar (c : Char) : Bool :=
  c.isDigit || c = '.' || isMarker c

/-- The scanning `while` loop of `splitSentences`: repeatedly match the
regex; a trimmed match that passes the `/[0-9\.。！？!?，,]/` test is pushed
and the scan continues after it, otherwise the loop breaks with `lastIndex`
unchanged.  `fuel` bounds the recursion; every accepted match consumes at
least one character, so `fuel = text.length` steps always suffice. -/
def scanAux : Nat → List Char → List (List Char) × List Char
  | 0, text => ([], text)
  | fuel + 1, text =>
    match findMatchLen text with
    | none => ([], text)
    | some n =>
      let m := trimChars (text.take n)
      if m.any isTestChar then
        let r := scanAux fuel (text.drop n)
        (m :: r.1, r.2)
      else ([], text)

/-- The merge pass of `splitSentences`: greedily glue candidate sentences
(each suffixed with one space) into buffers of at most 60 characters. -/
def mergeSentences : List (List Char) → List Char → List (List Char)
  | [], buffer => if buffer = [] then [] else [buffer]
  | s :: rest, buffer =>
    if (buffer ++ s ++ [' ']).length ≤ 60 then
      mergeSentences rest (buffer ++ s ++ [' '])
    else if buffer = [] then
      mergeSentences rest (s ++ [' '])
    else
      buffer :: mergeSentences rest (s ++ [' '])

/-- Result of `splitSentences`. -/
structure SplitResult where
  sentences : List (List Char)
  remaining : List Char
deriving DecidableEq, Repr

/-- `splitSentences(text)` from `src/utils`: scan for sentences, merge short
ones up to the 60-character budget, and return the trimmed remainder
(`text.slice(lastIndex).trim()`). -/
def splitSentences (text : List Char) : SplitResult :=
  let r := scanAux (text.length + 1) text
  ⟨mergeSentences r.1 [], trimChars r.2⟩

/-- `purifyTextForTTS` from `src/utils`: remove `*`, `#`, `~` and emoji
(Unicode `Emoji_Presentation`, ZWJ, VS16) and trim.  The emoji part of the
character class is kept abstract as the predicate `e`; theorems about
concrete emoji-free inputs instantiate it with `emojiNone`. -/
def purifyTextForTTS (e : Char → Bool) (text : List Char) : List Char :=
  trimChars (text.filter (fun c => !(c = '*' || c = '#' || c = '~' || e c)))

/-- The `Emoji_Presentation ∪ \x7b ZWJ, VS16 \x7d` predicate restricted to inputs
that contain no emoji at all: constantly false.  Faithful on every string
appearing in the concrete claims (all ASCII). -/
def emojiNone : Char → Bool := fun _ => false

/-- `replace(/\n/g, " ")` applied character-wise. -/
def nl2sp (c : Char) : Char := if c = '\n' then ' ' else c

/-- State of a `StreamResponser` (`src/core/StreamResponsor.ts`):
`pendingContent` models the field `partialContent` (incomplete trailing
text), `fullResponse` the accumulated raw response, `parsedSentences` the
sentences produced so far, `answerId` the largest generation id seen,
`speakArray` the playback queue (modelled by the texts handed to the TTS
function, in push order), `isStartSpeak` the pump-running flag, and
`playEndResolved` whether the current play-ended promise has already been
resolved (a JavaScript promise resolves at most once; the constructor's
initial resolver is a spent no-op). -/
structure RespState where
  pendingContent : List Char
  fullResponse : List Char
  parsedSentences : List (List Char)
  answerId : Nat
  speakArray : List (List Char)
  isStartSpeak : Bool
  playEndResolved : Bool
deriving DecidableEq, Repr

/-- The observable callback invocations of one orchestrator operation:
each sentences-updated callback argument, each full-text callback argument,
and each text handed to the TTS synthesizer. -/
structure Events where
  sentencesCallbacks : List (List (List Char))
  textCallbacks : List (List Char)
  ttsCalls : List (List Char)
deriving DecidableEq, Repr

/-- No callback fired. -/
def noEvents : Events := ⟨[], [], []⟩

/-- Concatenation of event logs in temporal order. -/
def appendEvents (a b : Events) : Events :=
  ⟨a.sentencesCallbacks ++ b.sentencesCallbacks,
   a.textCallbacks ++ b.textCallbacks,
   a.ttsCalls ++ b.ttsCalls⟩

/-- The state of a freshly constructed `StreamResponser`. -/
def initState : RespState :=
  { pendingContent := [], fullResponse := [], parsedSentences := [],
    answerId := 0, speakArray := [], isStartSpeak := false,
    playEndResolved := true }

/-- `StreamResponser.partial(text, answerId)`: drop when the tagged id is
strictly below the largest seen; otherwise record the id, append the
fragment to both buffers, normalize newlines, segment, and on newly
completed sentences push them and fire the sentences-updated callback. -/
def feed (s : RespState) (t : List Char) (g : Nat) : RespState × Events :=
  if g < s.answerId then (s, noEvents)
  else
    let pc := (s.pendingContent ++ t).map nl2sp
    let r := splitSentences pc
    if r.sentences = [] then
      ({ s with answerId := g, pendingContent := r.remaining,
                fullResponse := s.fullResponse ++ t }, noEvents)
    else
      ({ s with answerId := g, pendingContent := r.remaining,
                fullResponse := s.fullResponse ++ t,
                parsedSentences := s.parsedSentences ++ r.sentences },
       { noEvents with sentencesCallbacks := [s.parsedSentences ++ r.sentences] })

/-- `StreamResponser.endPartial(answerId)`: drop when stale; otherwise flush
a non-empty remainder as a final sentence (firing the sentences-updated
callback), synthesize the purified full response when it is non-blank
(pushing the pending result onto `speakArray`), fire the full-text callback
with the joined sentences, and reset the sentence and full-response
buffers. -/
def endFeed (e : Char → Bool) (s : RespState) (g : Nat) : RespState × Events :=
  if g < s.answerId then (s, noEvents)
  else
    let ps := if s.pendingContent = [] then s.parsedSentences
              else s.parsedSentences ++ [s.pendingContent]
    let flushEv := if s.pendingContent = [] then [] else [ps]
    let clean := purifyTextForTTS e s.fullResponse
    let doTTS := ¬ trimChars clean = []
    ({ s with answerId := g, pendingContent := [], parsedSentences := [],
              fullResponse := [],
              speakArray := if doTTS then s.speakArray ++ [clean] else s.speakArray },
     { sentencesCallbacks := flushEv,
       textCallbacks := [List.intercalate [' '] ps],
       ttsCalls := if doTTS then [clean] else [] })

/-- `StreamResponser.getPlayEndPromise()`: install a fresh single-shot
resolver (replacing the previous one). -/
def newPlayEndSignal (s : RespState) : RespState :=
  { s with playEndResolved := false }

/-- `StreamResponser.stop()`: clear the playback queue and every buffer,
mark the pump idle, and call the play-ended resolver.  The returned flag is
true when that call actually resolves the promise (a promise resolves at
most once, so a second call observes `false`).  `answerId` is untouched. -/
def stopResp (s : RespState) : RespState × Bool :=
  ({ s with speakArray := [], isStartSpeak := false, pendingContent := [],
            parsedSentences := [], fullResponse := [],
            playEndResolved := true },
   !s.playEndResolved)

/-- Iterate `stopResp` and count how many of the calls actually resolved
the play-ended promise. -/
def stopN : Nat → RespState → RespState × Nat
  | 0, s => (s, 0)
  | n + 1, s =>
    let r1 := stopResp s
    let r2 := stopN n r1.1
    (r2.1, (if r1.2 then 1 else 0) + r2.2)

/-- An event of the playback pump: playback of queue entry `i` begins
(`playAudioData` is invoked) or the corresponding completion has been
awaited. -/
inductive PlayEvent
  | start (i : Nat)
  | finish (i : Nat)
deriving DecidableEq, Repr

/-- The `playNext` recursion of `StreamResponser.playAudioInOrder`, as the
trace of playback events it emits over a queue of length `len` starting at
cursor `i`: while the cursor is before the queue length, await the entry,
play it (start), await its completion (finish), advance the cursor.  `fuel`
bounds the recursion; `len` steps always suffice since the cursor strictly
increases.  (The retry branch taken while `partialContent` is non-empty
only re-enters the same recursion later and emits no play events, and the
queue only ever grows by appending, so the trace over the final queue
length is the full trace.) -/
def playNextAux (len : Nat) : Nat → Nat → List PlayEvent
  | 0, _ => []
  | fuel + 1, i =>
    if i < len then
      .start i :: .finish i :: playNextAux len fuel (i + 1)
    else []

/-- Full trace of one pump run over a queue of `len` entries. -/
def pumpTrace (len : Nat) : List PlayEvent := playNextAux len len 0

/-- The queue indices whose playback was started, in trace order. -/
def startedIndices (trace : List PlayEvent) : List Nat :=
  trace.filterMap (fun ev => match ev with
    | .start i => some i
    | .finish _ => none)

/-- A trace never has two playbacks in flight: scanning left to right with
the flag saying whether a playback is active, every `start` happens while
idle and every `finish` closes the active playback. -/
def noOverlap : List PlayEvent → Bool → Bool
  | [], _ => true
  | .start _ :: rest, false => noOverlap rest true
  | .start _ :: _, true => false
  | .finish _ :: rest, true => noOverlap rest false
  | .finish _ :: _, false => false

/-- The part of a `ChatFlow` (`src/core/ChatFlow.ts`) that the asynchronous
callbacks touch: the current flow name, the controller's own `answerId`
counter, the streamed thinking buffer, and the owned `StreamResponser`. -/
structure ChatState where
  currentFlowName : List Char
  chatAnswerId : Nat
  thinkingBuf : List Char
  resp : RespState
deriving DecidableEq, Repr

/-- The LLM partial-text callback wired in the `answer` case:
`(text) => partial(text, currentAnswerId)` — it forwards to the responser
unconditionally (no phase check; the display callback inside the responser
separately checks the phase before drawing). -/
def onPartialText (cs : ChatState) (t : List Char) (g : Nat) : ChatState :=
  { cs with resp := (feed cs.resp t g).1 }

/-- The stream-end callback wired in the `answer` case:
`() => endPartial(currentAnswerId)` — forwards unconditionally. -/
def onStreamEnd (e : Char → Bool) (cs : ChatState) (g : Nat) : ChatState :=
  { cs with resp := (endFeed e cs.resp g).1 }

/-- `ChatFlow.partialThinkingCallback`: returns unless the flow is still
`"answer"` and the tagged id is not stale; otherwise appends the thinking
fragment (the display call carries the updated buffer). -/
def onThinking (cs : ChatState) (t : List Char) (g : Nat) : ChatState :=
  if cs.currentFlowName ≠ s2c "answer" ∨ g < cs.chatAnswerId then cs
  else { cs with thinkingBuf := cs.thinkingBuf ++ t }

/-- Where the `asr` case of `ChatFlow.setCurrentFlow` goes next. -/
inductive NextFlow
  | listening
  | sleepNow
  | sleepAfterDelay
  | answerFlow
deriving DecidableEq, Repr

/-- Outcome of handling a recognition result: the new value of the
`translateMode` flag, the next flow, and whether a mode-confirmation
indicator was displayed. -/
structure AsrEffect where
  newMode : Bool
  next : NextFlow
  confirmShown : Bool
deriving DecidableEq, Repr

/-- `toLowerCase().trim()` (ASCII fold; every command phrase is ASCII). -/
def lowerTrim (l : List Char) : List Char :=
  trimChars (l.map Char.toLower)

/-- The five exact translate-mode activation phrases. -/
def activationPhrases : List (List Char) :=
  [s2c "translate mode", s2c "translation mode", s2c "activate translate mode",
   s2c "enable translate mode", s2c "turn on translate mode"]

/-- The five exact translate-mode deactivation phrases. -/
def deactivationPhrases : List (List Char) :=
  [s2c "normal mode", s2c "chat mode", s2c "disable translate mode",
   s2c "deactivate translate mode", s2c "turn off translate mode"]

/-- The recognition-result handler of the `asr` case (lines 142-200 of
`ChatFlow.ts`): the race winner `"[UserPress]"` restarts listening; an
exact (lowercased, trimmed) activation or deactivation phrase flips the
mode flag, shows a confirmation display and schedules a return to the sleep
(idle) flow after a fixed delay; any other non-empty result enters the
`answer` flow; an empty result sleeps immediately.  The current mode `m`
is threaded through for the branches that keep it. -/
def applyAsr (m : Bool) (result : List Char) : AsrEffect :=
  if result = s2c "[UserPress]" then ⟨m, .listening, false⟩
  else if result = [] then ⟨m, .sleepNow, false⟩
  else if lowerTrim result ∈ activationPhrases then ⟨true, .sleepAfterDelay, true⟩
  else if lowerTrim result ∈ deactivationPhrases then ⟨false, .sleepAfterDelay, true⟩
  else ⟨m, .answerFlow, false⟩

/-- The flow names that `ChatFlow.setCurrentFlow` has a case for; any other
name lands in the `default` branch (a logged programmer error, state
unchanged). -/
def knownFlowNames : List (List Char) :=
  [s2c "sleep", s2c "listening", s2c "asr", s2c "answer", s2c "image"]

/-- The final sentence sequence produced by feeding `chunks` one at a time
through `partial` under one generation and flushing the remainder at stream
end, exactly as `endPartial` does (the flushed remainder becomes the last
chunk). -/
def runIncremental (chunks : List (List Char)) : List (List Char) :=
  let s := chunks.foldl (fun s c => (feed s c 0).1) initState
  s.parsedSentences ++ (if s.pendingContent = [] then [] else [s.pendingContent])

/-- The spec scenario: a responser whose current generation is 3 receives
`"The "`, `"weather is "`, `"sunny today."` via `partial` and then one
`endPartial`, all tagged 3; final state plus concatenated event log. -/
def scenarioWeather : RespState × Events :=
  let s0 : RespState := { initState with answerId := 3 }
  let r1 := feed s0 (s2c "The ") 3
  let r2 := feed r1.1 (s2c "weather is ") 3
  let r3 := feed r2.1 (s2c "sunny today.") 3
  let r4 := endFeed emojiNone r3.1 3
  (r4.1, appendEvents (appendEvents (appendEvents r1.2 r2.2) r3.2) r4.2)

/-- A controller that has left the answering phase (the user pressed the
button, moving to `listening`) while generation 3 is still current, with a
quiescent responser also at generation 3. -/
def csListening : ChatState :=
  ⟨s2c "listening", 3, [], { initState with answerId := 3 }⟩

/-- A responser whose accumulated response consists only of characters that
speech sanitization strips. -/
def blankResp : RespState := { initState with fullResponse := s2c "*#~" }

end Whisplay


namespace Whisplay

/-! Helper lemmas shared by several theorems. -/

theorem trimChars_nil : trimChars [] = [] := rfl

theorem feed_stale (s : RespState) (t : List Char) (g : Nat)
    (h : g < s.answerId) : feed s t g = (s, noEvents) := by
  simp [feed, h]

theorem endFeed_stale (e : Char → Bool) (s : RespState) (g : Nat)
    (h : g < s.answerId) : endFeed e s g = (s, noEvents) := by
  simp [endFeed, h]

theorem feed_accept (s : RespState) (t : List Char) (g : Nat)
    (h : ¬ g < s.answerId) :
    (feed s t g).1.answerId = g ∧
    (feed s t g).1.fullResponse = s.fullResponse ++ t := by
  simp only [feed, if_neg h]
  split <;> exact ⟨rfl, rfl⟩

theorem stopResp_stopResp (s : RespState) :
    stopResp (stopResp s).1 = ((stopResp s).1, false) := rfl

theorem stopN_stopped (n : Nat) (s : RespState) :
    stopN n (stopResp s).1 = ((stopResp s).1, 0) := by
  induction n with
  | zero => rfl
  | succ n ih => simp [stopN, stopResp_stopResp, ih]

theorem startedIndices_playNextAux (len : Nat) :
    ∀ fuel i, len ≤ i + fuel →
      startedIndices (playNextAux len fuel i) = List.range' i (len - i) := by
  intro fuel
  induction fuel with
  | zero =>
    intro i h
    have : len - i = 0 := by omega
    simp [playNextAux, startedIndices, this]
  | succ fuel ih =>
    intro i h
    by_cases hi : i < len
    · have hrec := ih (i + 1) (by omega)
      have hlen : len - i = (len - (i + 1)) + 1 := by omega
      simp only [playNextAux, if_pos hi, startedIndices, List.filterMap_cons] at *
      rw [hlen, List.range'_succ]
      simpa using hrec
    · have : len - i = 0 := by omega
      simp [playNextAux, if_neg hi, startedIndices, this]

theorem noOverlap_playNextAux (len : Nat) :
    ∀ fuel i, noOverlap (playNextAux len fuel i) false = true := by
  intro fuel
  induction fuel with
  | zero => intro i; rfl
  | succ fuel ih =>
    intro i
    by_cases hi : i < len
    · simp only [playNextAux, if_pos hi, noOverlap]
      exact ih (i + 1)
    · simp [playNextAux, if_neg hi, noOverlap]

/-! Claim theorems. -/

/-- C1, counterexample.  The claim says a callback whose phase no longer
matches is a no-op; but a `partial` callback tagged with the still-current
generation 3, delivered after the controller has moved from `answer` to
`listening`, still mutates the responser's buffers (observable state). -/
theorem stale_phase_callback_mutates_state :
    csListening.currentFlowName ≠ s2c "answer" ∧
    csListening.resp.answerId = 3 ∧
    (onPartialText csListening (s2c "Hi.") 3).resp ≠ csListening.resp := by decide

/-- C1, amended.  A callback tagged with generation `g` is dropped by
`partial`/`endPartial` exactly on the generation guard `g < answerId`,
regardless of phase: stale partial-text and stream-end callbacks are
complete no-ops, the thinking callback is additionally a no-op whenever the
phase is not `answer`, and a current-generation partial-text callback is
honored (it appends to `fullResponse`) whatever the current phase is. -/
theorem callback_guards_generation_only :
    (∀ cs t g, g < cs.resp.answerId → onPartialText cs t g = cs) ∧
    (∀ e cs g, g < cs.resp.answerId → onStreamEnd e cs g = cs) ∧
    (∀ cs t g, cs.currentFlowName ≠ s2c "answer" ∨ g < cs.chatAnswerId →
      onThinking cs t g = cs) ∧
    (∀ cs t g, ¬ g < cs.resp.answerId →
      (onPartialText cs t g).resp.fullResponse = cs.resp.fullResponse ++ t) := by
  refine ⟨?_, ?_, ?_, ?_⟩
  · intro cs t g h
    simp [onPartialText, feed_stale cs.resp t g h]
  · intro e cs g h
    simp [onStreamEnd, endFeed_stale e cs.resp g h]
  · intro cs t g h
    simp [onThinking, h]
  · intro cs t g h
    exact (feed_accept cs.resp t g h).2

/-- Witness for the amended C1 at concrete inputs. -/
theorem callback_guards_generation_only_witness :
    ((2 : Nat) < csListening.resp.answerId ∧
      onPartialText csListening (s2c "x") 2 = csListening) ∧
    onThinking csListening (s2c "x") 3 = csListening ∧
    ¬ (3 : Nat) < csListening.resp.answerId ∧
    (onPartialText csListening (s2c "x") 3).resp.fullResponse =
      csListening.resp.fullResponse ++ s2c "x" :=
  ⟨⟨by decide, callback_guards_generation_only.1 csListening (s2c "x") 2 (by decide)⟩,
   callback_guards_generation_only.2.2.1 csListening (s2c "x") 3 (Or.inl (by decide)),
   by decide,
   callback_guards_generation_only.2.2.2 csListening (s2c "x") 3 (by decide)⟩

/-- C2.  Feeding `"The weather."` as the two chunks `"The "`, `"weather."`
(re-feeding the remainder each time, flushing at stream end) yields the
final sentence sequence `["Theweather. "]`, while segmenting the whole text
in one call yields `["The weather. "]`: the remainder is trimmed, so the
space at the chunk boundary is lost and the sequences differ. -/
theorem chunked_segmentation_differs_from_whole :
    runIncremental [s2c "The ", s2c "weather."] = [s2c "Theweather. "] ∧
    runIncremental [s2c "The weather."] = [s2c "The weather. "] ∧
    runIncremental [s2c "The ", s2c "weather."] ≠
      runIncremental [s2c "The weather."] := by decide

/-- C3.  In the streamed-weather scenario under generation 3, exactly one
TTS call is made with the cleaned text `"The weather is sunny today."` and
exactly one queue entry is played, as claimed — but the sentences-updated
callback fires with `["Theweather issunny today. "]`: the spaces at the two
chunk boundaries are lost because the segmenter trims the remainder. -/
theorem weather_scenario_eval :
    scenarioWeather.2.ttsCalls = [s2c "The weather is sunny today."] ∧
    scenarioWeather.1.speakArray = [s2c "The weather is sunny today."] ∧
    startedIndices (pumpTrace scenarioWeather.1.speakArray.length) = [0] ∧
    scenarioWeather.2.sentencesCallbacks = [[s2c "Theweather issunny today. "]] ∧
    scenarioWeather.2.sentencesCallbacks ≠
      [[s2c "The weather is sunny today. "]] := by decide

/-- C4.  One run of the playback pump over a queue of `len` entries starts
entry playback exactly in FIFO index order `0, 1, …, len-1`, each entry
once, and never begins a playback while another one is still active (every
`start` is preceded by the `finish` of the previous entry). -/
theorem playback_pump_fifo_no_overlap (len : Nat) :
    startedIndices (pumpTrace len) = List.range len ∧
    noOverlap (pumpTrace len) false = true := by
  constructor
  · have h := startedIndices_playNextAux len len 0 (by omega)
    simpa [pumpTrace, List.range_eq_range'] using h
  · exact noOverlap_playNextAux len len 0

/-- C5.  From any state whose play-ended promise is still pending, any
number `n ≥ 1` of consecutive `stop()` calls resolves the promise exactly
once, the state after `n` calls equals the state after one call
(idempotence), and that state has an empty playback queue and empty
buffers with the pump marked idle.  (`stop` is a total function of the
state: no exception is possible.) -/
theorem stop_idempotent_resolves_once (s : RespState) (n : Nat)
    (hn : 1 ≤ n) (hs : s.playEndResolved = false) :
    (stopN n s).2 = 1 ∧ (stopN n s).1 = (stopResp s).1 ∧
    (stopResp s).1.speakArray = [] ∧ (stopResp s).1.pendingContent = [] ∧
    (stopResp s).1.parsedSentences = [] ∧ (stopResp s).1.fullResponse = [] ∧
    (stopResp s).1.isStartSpeak = false := by
  obtain ⟨m, rfl⟩ : ∃ m, n = m + 1 := ⟨n - 1, by omega⟩
  refine ⟨?_, ?_, rfl, rfl, rfl, rfl, rfl⟩
  · simp only [stopN, stopN_stopped]
    simp [stopResp, hs]
  · simp [stopN, stopN_stopped]

/-- Witness for C5: two consecutive stops after taking a fresh play-ended
handle on a fresh responser. -/
theorem stop_idempotent_resolves_once_witness :
    (1 ≤ 2 ∧ (newPlayEndSignal initState).playEndResolved = false) ∧
    ((stopN 2 (newPlayEndSignal initState)).2 = 1 ∧
     (stopN 2 (newPlayEndSignal initState)).1 = (stopResp (newPlayEndSignal initState)).1 ∧
     (stopResp (newPlayEndSignal initState)).1.speakArray = [] ∧
     (stopResp (newPlayEndSignal initState)).1.pendingContent = [] ∧
     (stopResp (newPlayEndSignal initState)).1.parsedSentences = [] ∧
     (stopResp (newPlayEndSignal initState)).1.fullResponse = [] ∧
     (stopResp (newPlayEndSignal initState)).1.isStartSpeak = false) :=
  ⟨⟨by decide, by decide⟩,
   stop_idempotent_resolves_once (newPlayEndSignal initState) 2 (by decide) (by decide)⟩

/-- C6.  Any recognition result whose lowercased, trimmed form is exactly
one of the five activation phrases sets the mode flag to Translate, shows
the confirmation indicator and schedules the return to idle, never entering
the answering flow; the two non-exact variants from the spec are routed to
the answering flow with the flag unchanged; and starting from Normal mode,
the flag becomes Translate exactly on an exact activation match. -/
theorem translate_activation_exact_match :
    (∀ m r, lowerTrim r ∈ activationPhrases →
      applyAsr m r = ⟨true, NextFlow.sleepAfterDelay, true⟩) ∧
    (∀ m, applyAsr m (s2c "Translate Mode!") = ⟨m, NextFlow.answerFlow, false⟩) ∧
    (∀ m, applyAsr m (s2c "please translate mode now please") =
      ⟨m, NextFlow.answerFlow, false⟩) ∧
    (∀ r, (applyAsr false r).newMode = true ↔ lowerTrim r ∈ activationPhrases) := by
  refine ⟨?_, by decide, by decide, ?_⟩
  · intro m r h
    have hup : ¬ r = s2c "[UserPress]" := by
      rintro rfl; revert h; decide
    have hnil : ¬ r = [] := by
      rintro rfl; revert h; decide
    simp [applyAsr, hup, hnil, h]
  · intro r
    simp only [applyAsr]
    split_ifs with h1 h2 h3 h4
    · subst h1; decide
    · subst h2; decide
    · simp [h3]
    · simp [h3]
    · simp [h3]

/-- Witness for C6: an upper-case, padded activation utterance. -/
theorem translate_activation_exact_match_witness :
    lowerTrim (s2c "  TRANSLATE MODE ") ∈ activationPhrases ∧
    applyAsr false (s2c "  TRANSLATE MODE ") =
      ⟨true, NextFlow.sleepAfterDelay, true⟩ :=
  ⟨by decide,
   translate_activation_exact_match.1 false (s2c "  TRANSLATE MODE ") (by decide)⟩

/-- C7.  A non-empty, non-command recognition result is routed to the
`answer` flow even when the translate-mode flag is set, and the state
machine has no `translate`/`translating` flow at all — contradicting the
claimed routing to a Translating phase (which the repository's own
documentation also describes). -/
theorem translate_mode_still_routes_to_answer :
    applyAsr true (s2c "hello") = ⟨true, NextFlow.answerFlow, false⟩ ∧
    applyAsr false (s2c "hello") = ⟨false, NextFlow.answerFlow, false⟩ ∧
    s2c "translate" ∉ knownFlowNames ∧
    s2c "translating" ∉ knownFlowNames := by decide

/-- C8.  On the enumeration `"1. 2. x"` the segmenter accepts both spans
`"1."` and `"2."` — every character of `"1."` is in the numeric/punctuation
class, yet the span is split off (and merged into the sentence
`"1. 2. "`) instead of being rejected: the rejection the claim describes
never fires, because every matched span ends with a marker character and
the code's test only asks for one such character to be present. -/
theorem enumeration_is_split :
    splitSentences (s2c "1. 2. x") = ⟨[s2c "1. 2. "], s2c "x"⟩ ∧
    (s2c "1.").all isTestChar = true ∧
    (splitSentences (s2c "1. 2. x")).sentences ≠ [] := by decide

/-- C9.  `partial`/`endPartial` drop a call exactly when its tag is
strictly below the largest id seen; an accepted `partial` records the tag
and appends to the response buffer; `stop()` leaves the generation bar
unchanged; and the wired partial-text callback behaves identically under
any current flow name (the phase is never consulted). -/
theorem generation_guard_iff :
    (∀ s t g, g < s.answerId → feed s t g = (s, noEvents)) ∧
    (∀ e s g, g < s.answerId → endFeed e s g = (s, noEvents)) ∧
    (∀ s t g, ¬ g < s.answerId →
      (feed s t g).1.answerId = g ∧
      (feed s t g).1.fullResponse = s.fullResponse ++ t) ∧
    (∀ s, (stopResp s).1.answerId = s.answerId) ∧
    (∀ cs t g f, (onPartialText { cs with currentFlowName := f } t g).resp =
      (onPartialText cs t g).resp) :=
  ⟨feed_stale, endFeed_stale, feed_accept, fun _ => rfl, fun _ _ _ _ => rfl⟩

/-- Witness for C9 at generation bar 3: tag 2 is dropped, tag 3 is
accepted and mutates the buffer even though the state is the post-interrupt
`listening` one. -/
theorem generation_guard_iff_witness :
    ((2 : Nat) < 3 ∧
      feed { initState with answerId := 3 } (s2c "x") 2 =
        ({ initState with answerId := 3 }, noEvents)) ∧
    (¬ (3 : Nat) < 3 ∧
      (feed { initState with answerId := 3 } (s2c "x") 3).1.answerId = 3 ∧
      (feed { initState with answerId := 3 } (s2c "x") 3).1.fullResponse =
        ({ initState with answerId := 3 } : RespState).fullResponse ++ s2c "x") :=
  ⟨⟨by decide, generation_guard_iff.1 _ (s2c "x") 2 (by decide)⟩,
   ⟨by decide, generation_guard_iff.2.2.1 _ (s2c "x") 3 (by decide)⟩⟩

/-- C10.  When the sanitized, trimmed response text is empty, an accepted
`endPartial` makes no TTS call and pushes nothing onto the playback queue,
while the full-text callback still fires exactly once and the sentence and
full-response buffers are reset. -/
theorem endstream_empty_clean_no_tts (e : Char → Bool) (s : RespState) (g : Nat)
    (hg : ¬ g < s.answerId) (he : purifyTextForTTS e s.fullResponse = []) :
    (endFeed e s g).2.ttsCalls = [] ∧
    (endFeed e s g).1.speakArray = s.speakArray ∧
    (endFeed e s g).2.textCallbacks.length = 1 ∧
    (endFeed e s g).1.parsedSentences = [] ∧
    (endFeed e s g).1.fullResponse = [] := by
  simp [endFeed, hg, he, trimChars_nil]

/-- Witness for C10: a response consisting only of stripped markup. -/
theorem endstream_empty_clean_no_tts_witness :
    (¬ (0 : Nat) < blankResp.answerId ∧
      purifyTextForTTS emojiNone blankResp.fullResponse = []) ∧
    ((endFeed emojiNone blankResp 0).2.ttsCalls = [] ∧
     (endFeed emojiNone blankResp 0).1.speakArray = blankResp.speakArray ∧
     (endFeed emojiNone blankResp 0).2.textCallbacks.length = 1 ∧
     (endFeed emojiNone blankResp 0).1.parsedSentences = [] ∧
     (endFeed emojiNone blankResp 0).1.fullResponse = []) :=
  ⟨⟨by decide, by decide⟩,
   endstream_empty_clean_no_tts emojiNone blankResp 0 (by decide) (by decide)⟩

end Whisplay
